import Mathlib

/-!
Shallow embedding of the drDragonBot torrent-bot core: the qBittorrent
daemon client, the tracker client with its reconnect-and-retry policy,
the link recognizer, and the conversation router with its pending-link
table.  Strings are modelled as `List Char`; HTTP transports are
modelled as oracles (functions from a request counter to a response),
and every client call returns its result together with the list of
network events it performed, so that request-counting properties can
be stated and proved.
-/

/-! ## List-of-characters utilities -/

/-- Whether `needle` occurs at the very start of `hay`. -/
def beginsWith : List Char → List Char → Bool
  | [], _ => true
  | _ :: _, [] => false
  | a :: as, b :: bs => a = b && beginsWith as bs

/-- Whether `needle` occurs anywhere inside `hay` (models Go
strings.Contains). -/
def hasSub (needle : List Char) : List Char → Bool
  | [] => beginsWith needle []
  | s@(_ :: rest) => beginsWith needle s || hasSub needle rest

/-- Split a character list on the colon character (models Go
strings.Split(s, ":")), with `acc` holding the reversed current field. -/
def splitColsAux (acc : List Char) : List Char → List (List Char)
  | [] => [acc.reverse]
  | c :: rest =>
    if c = ':' then acc.reverse :: splitColsAux [] rest
    else splitColsAux (c :: acc) rest

/-- Split a character list on the colon character. -/
def splitCols (s : List Char) : List (List Char) := splitColsAux [] s

/-- Whether the string ends with a period (models Go
strings.HasSuffix(s, ".")). -/
def endsWithDot (s : List Char) : Bool := s.getLast? = some '.'

/-! ## Link recognition (model of the regular expressions in
`ProcessTorrentLink` and of the bot's torrent-link matcher)

The Go pattern is
  (http|https)://(kinozal|rutracker)\.[a-z]{2,4}\b([-a-zA-Z0-9@:%_+.~#?&/=]*)
and a match exists if and only if at some position the scheme, one of
the two host names, a dot, two to four lowercase letters and a word
boundary occur in sequence (the final character class may match the
empty string, so it never blocks a match). -/

/-- Lowercase ASCII letter, the `[a-z]` class of the host pattern. -/
def lowerAlpha (c : Char) : Bool := 'a' ≤ c && c ≤ 'z'

/-- Word character for the regex word-boundary rule: ASCII letters,
digits, and the underscore. -/
def wordChar (c : Char) : Bool := c.isAlphanum || c = '_'

/-- A word boundary holds here when the preceding character was a word
character: the input must be exhausted or continue with a non-word
character. -/
def boundaryNext : List Char → Bool
  | [] => true
  | c :: _ => !(wordChar c)

/-- Two to four lowercase letters followed by a word boundary (the
`[a-z]\x7b2,4\x7d\b` tail of the host pattern). -/
def lettersBoundary (s : List Char) : Bool :=
  match s with
  | a :: b :: rest =>
    lowerAlpha a && lowerAlpha b &&
      (boundaryNext rest ||
        (match rest with
         | c :: rest2 =>
           lowerAlpha c && (boundaryNext rest2 ||
             (match rest2 with
              | d :: rest3 => lowerAlpha d && boundaryNext rest3
              | [] => false))
         | [] => false))
  | _ => false

/-- A dot followed by the letters-and-boundary tail. -/
def dotTail : List Char → Bool
  | '.' :: rest => lettersBoundary rest
  | _ => false

/-- The host alternation `(kinozal|rutracker)` followed by the dot tail. -/
def hostAt (s : List Char) : Bool :=
  (beginsWith ("kinozal".toList) s && dotTail (s.drop 7)) ||
  (beginsWith ("rutracker".toList) s && dotTail (s.drop 9))

/-- The scheme alternation `(http|https)://`; returns what follows it. -/
def afterScheme (s : List Char) : Option (List Char) :=
  if beginsWith ("https://".toList) s then some (s.drop 8)
  else if beginsWith ("http://".toList) s then some (s.drop 7)
  else none

/-- Whether the full URL pattern matches at the start of `s`. -/
def urlAt (s : List Char) : Bool :=
  match afterScheme s with
  | some r => hostAt r
  | none => false

/-- Whether the URL pattern matches anywhere in `s` (models
regexp.MatchString / FindStringSubmatch returning a match). -/
def hasURL : List Char → Bool
  | [] => false
  | s@(_ :: rest) => urlAt s || hasURL rest

/-- Leftmost occurrence of `kinozal` or `rutracker` in the text
(models the FindString call of the `kinozal|rutracker` pattern);
`none` when neither occurs. -/
def findTracker : List Char → Option (List Char)
  | [] => none
  | s@(_ :: rest) =>
    if beginsWith ("kinozal".toList) s then some ("kinozal".toList)
    else if beginsWith ("rutracker".toList) s then some ("rutracker".toList)
    else findTracker rest

/-- Go regexp.FindString returns the empty string when there is no
match. -/
def findTrackerStr (s : List Char) : List Char :=
  match findTracker s with
  | some w => w
  | none => []

/-- The maximal digit run at the front of `s` (the greedy capture of a
digits group). -/
def takeDigits (s : List Char) : List Char := s.takeWhile Char.isDigit

/-- Leftmost match of `key` immediately followed by at least one
digit; returns the maximal digit run after the key (models the
FindStringSubmatch of a key-then-digits pattern). -/
def extractKey (key : List Char) : List Char → Option (List Char)
  | [] => none
  | s@(c :: rest) =>
    if beginsWith key s then
      match s.drop key.length with
      | d :: ds =>
        if d.isDigit then some (takeDigits (d :: ds))
        else extractKey key rest
      | [] => extractKey key rest
    else
      (fun _ => extractKey key rest) c

/-- Error outcomes of `ProcessTorrentLink`. -/
inductive LinkErr where
  | noMatch
  | extractionRutracker
  | extractionKinozal
  | unsupportedTracker (name : List Char)
deriving DecidableEq, Repr

/-- Model of `ProcessTorrentLink`: match the URL pattern, find which
tracker word occurs leftmost, then extract the numeric id with the
site-specific key. -/
def processTorrentLink (link : List Char) : Except LinkErr (List Char × List Char) :=
  if hasURL link then
    let trackerName := findTrackerStr link
    if trackerName = "rutracker".toList then
      match extractKey ("t=".toList) link with
      | some d => .ok (trackerName, d)
      | none => .error .extractionRutracker
    else if trackerName = "kinozal".toList then
      match extractKey ("id=".toList) link with
      | some d => .ok (trackerName, d)
      | none => .error .extractionKinozal
    else .error (.unsupportedTracker trackerName)
  else .error .noMatch

/-- Decidable equality for `Except`, used to evaluate concrete client
runs inside proofs. -/
instance {ε α : Type} [DecidableEq ε] [DecidableEq α] : DecidableEq (Except ε α) := fun a b =>
  match a, b with
  | .ok x, .ok y =>
    if h : x = y then .isTrue (by rw [h])
    else .isFalse (by intro hc; cases hc; exact h rfl)
  | .error x, .error y =>
    if h : x = y then .isTrue (by rw [h])
    else .isFalse (by intro hc; cases hc; exact h rfl)
  | .ok _, .error _ => .isFalse (by intro hc; cases hc)
  | .error _, .ok _ => .isFalse (by intro hc; cases hc)

/-! ## Tracker client (model of `TorrentTrackerClient`)

The HTTP transport is an oracle: the `k`-th login POST and the `k`-th
download GET receive the oracle's `k`-th answer.  Each operation
returns its result, the advanced cursors, and the list of network
events it performed. -/

/-- Outcome of a login POST: transport failure or a status code. -/
inductive LoginOut where
  | netErr
  | resp (status : Nat)
deriving DecidableEq, Repr

/-- Outcome of a download GET: transport failure or a status code with
a response body. -/
inductive GetOut where
  | netErr
  | resp (status : Nat) (body : List Char)
deriving DecidableEq, Repr

/-- Transport oracle for the tracker client. -/
structure TOracle where
  login : Nat → LoginOut
  get : Nat → GetOut

/-- Request cursors of a tracker-client run. -/
structure TSt where
  lg : Nat
  gt : Nat
deriving DecidableEq, Repr

/-- Network events performed by the tracker client.  `reconn` marks an
invocation of `Reconnect` (fresh cookie jar plus a login attempt);
`loginReq` and `getReq` mark actual HTTP requests. -/
inductive TEv where
  | loginReq
  | getReq
  | reconn
deriving DecidableEq, Repr

/-- Error outcomes of the tracker client, mirroring the error returns
of `LoginToTracker` and `DownloadTorrent`. -/
inductive TErr where
  | configErr
  | loginRequestFailed
  | loginBadStatus (code : Nat)
  | reconnectFailed (e : TErr)
  | unknownTracker
  | reconnectAfterNetErr (e : TErr)
  | retryRequestFailed
  | reconnectAfterUnauthorized (e : TErr)
  | badStatusAfterReconnect (code : Nat)
  | badStatus (code : Nat)
  | emptyPayload
  | formatErr
deriving DecidableEq, Repr

/-- Advance the login cursor. -/
def bumpLogin (st : TSt) : TSt := ⟨st.lg + 1, st.gt⟩

/-- Advance the download cursor. -/
def bumpGet (st : TSt) : TSt := ⟨st.lg, st.gt + 1⟩

/-- Model of `LoginToTracker`: a credential-lookup miss fails with the
config error before any HTTP request; otherwise one login POST is
issued and a non-200 status is a failure. -/
def loginToTracker (creds : List (List Char)) (o : TOracle) (name : List Char)
    (st : TSt) : Except TErr Unit × TSt × List TEv :=
  if name ∈ creds then
    match o.login st.lg with
    | .netErr => (.error .loginRequestFailed, bumpLogin st, [.loginReq])
    | .resp code =>
      if code = 200 then (.ok (), bumpLogin st, [.loginReq])
      else (.error (.loginBadStatus code), bumpLogin st, [.loginReq])
  else (.error .configErr, st, [])

/-- Model of `Reconnect`: replace the cookie jar (no observable effect
in this model) and attempt the login again. -/
def reconnectT (creds : List (List Char)) (o : TOracle) (name : List Char)
    (st : TSt) : Except TErr Unit × TSt × List TEv :=
  let (r, st1, ev) := loginToTracker creds o name st
  (r, st1, .reconn :: ev)

/-- The download-URL table keys (`TrackerURLs`). -/
def trackerNames : List (List Char) := ["rutracker".toList, "kinozal".toList]

/-- Final payload validation of `DownloadTorrent`: empty bodies are
rejected, then bodies shorter than 10 bytes or not starting with the
sentinel byte `d` are rejected as invalid format. -/
def validatePayload (body : List Char) : Except TErr (List Char) :=
  if body.length = 0 then .error .emptyPayload
  else if body.length < 10 ∨ body.head? ≠ some 'd' then .error .formatErr
  else .ok body

/-- The status-check stage of `DownloadTorrent`, applied to whichever
response the download phase produced: 200 proceeds to validation;
401/403 reconnects and retries the GET exactly once, failing if the
retry is not 200; any other status fails immediately. -/
def statusPhase (creds : List (List Char)) (o : TOracle) (name : List Char)
    (st : TSt) (code : Nat) (body : List Char) :
    Except TErr (List Char) × TSt × List TEv :=
  if code = 200 then (validatePayload body, st, [])
  else if code = 401 ∨ code = 403 then
    match reconnectT creds o name st with
    | (.error e, st1, ev1) => (.error (.reconnectAfterUnauthorized e), st1, ev1)
    | (.ok _, st1, ev1) =>
      match o.get st1.gt with
      | .netErr => (.error .retryRequestFailed, bumpGet st1, ev1 ++ [.getReq])
      | .resp c2 b2 =>
        if c2 = 200 then (validatePayload b2, bumpGet st1, ev1 ++ [.getReq])
        else (.error (.badStatusAfterReconnect c2), bumpGet st1, ev1 ++ [.getReq])
  else (.error (.badStatus code), st, [])

/-- The download phase of `DownloadTorrent`: issue the GET; on a
transport failure reconnect and retry the GET once; the resulting
response then flows into the status-check stage. -/
def getPhase (creds : List (List Char)) (o : TOracle) (name : List Char)
    (st : TSt) : Except TErr (List Char) × TSt × List TEv :=
  match o.get st.gt with
  | .resp c b =>
    let (r, st1, ev1) := statusPhase creds o name (bumpGet st) c b
    (r, st1, .getReq :: ev1)
  | .netErr =>
    match reconnectT creds o name (bumpGet st) with
    | (.error e, st1, ev1) => (.error (.reconnectAfterNetErr e), st1, .getReq :: ev1)
    | (.ok _, st1, ev1) =>
      match o.get st1.gt with
      | .netErr => (.error .retryRequestFailed, bumpGet st1, .getReq :: (ev1 ++ [.getReq]))
      | .resp c b =>
        let (r, st2, ev2) := statusPhase creds o name (bumpGet st1) c b
        (r, st2, .getReq :: (ev1 ++ [.getReq] ++ ev2))

/-- Model of `DownloadTorrent`: login (reconnecting once if the login
fails), resolve the download URL from the tracker table, then run the
download phase. -/
def downloadTorrent (creds : List (List Char)) (o : TOracle)
    (name tid : List Char) : Except TErr (List Char) × TSt × List TEv :=
  let st0 : TSt := ⟨0, 0⟩
  let next := fun (st : TSt) (ev : List TEv) =>
    if name ∈ trackerNames then
      let (r, st1, ev1) := getPhase creds o name st
      (r, st1, ev ++ ev1)
    else ((.error .unknownTracker : Except TErr (List Char)), st, ev)
  match loginToTracker creds o name st0 with
  | (.ok _, st1, ev1) => next st1 ev1
  | (.error _, st1, ev1) =>
    match reconnectT creds o name st1 with
    | (.error e, st2, ev2) => (.error (.reconnectFailed e), st2, ev1 ++ ev2)
    | (.ok _, st2, ev2) => next st2 (ev1 ++ ev2)

/-! ## Daemon client (model of `QBittorrentClient`)

Only the fields of `TorrentInfo` that the verified operations inspect
are modelled; the remaining display-only fields of the Go struct do
not influence any claim. -/

/-- A listed torrent record. -/
structure TorrentInfo where
  name : List Char
  hash : List Char
  addedOn : Int
deriving DecidableEq, Repr

/-- Outcome of a daemon HTTP request: transport failure or a status
code with a response body. -/
inductive DResp where
  | netErr
  | resp (status : Nat) (body : List Char)
deriving DecidableEq, Repr

/-- Outcome of the torrent-list GET; the body is modelled as its JSON
decode result (`none` when unmarshalling fails). -/
inductive DList where
  | netErr
  | resp (status : Nat) (decoded : Option (List TorrentInfo))

/-- Transport oracle for the daemon client. -/
structure DOracle where
  probe : Nat → DResp
  login : Nat → DResp
  addR : Nat → DResp
  listR : Nat → DList

/-- Daemon session state: the optimistic logged-in flag plus the
request cursors. -/
structure DSt where
  loggedIn : Bool
  pr : Nat
  lg : Nat
  ad : Nat
  ls : Nat
deriving DecidableEq, Repr

/-- Network events performed by the daemon client. -/
inductive DEv where
  | probeReq
  | loginReq
  | addReq
  | listReq
deriving DecidableEq, Repr

/-- Error outcomes of the daemon client. -/
inductive DErr where
  | loginRequestFailed
  | loginFailed
  | emptyTorrent
  | addRequestFailed
  | addBadStatus (code : Nat)
  | listRequestFailed
  | listParseFailed
  | afterAddFailed (e : DErr)
  | notFound
deriving DecidableEq, Repr

/-- Model of `Login`: one login POST; success requires status 200 and
a response body containing the substring Ok, and only success sets the
logged-in flag. -/
def loginD (o : DOracle) (st : DSt) : Except DErr Unit × DSt × List DEv :=
  match o.login st.lg with
  | .netErr => (.error .loginRequestFailed, { st with lg := st.lg + 1 }, [.loginReq])
  | .resp code body =>
    if code = 200 ∧ hasSub ("Ok".toList) body = true then
      (.ok (), { st with lg := st.lg + 1, loggedIn := true }, [.loginReq])
    else (.error .loginFailed, { st with lg := st.lg + 1 }, [.loginReq])

/-- Model of `ensureLoggedIn`: when the flag is set, issue one probe
GET and accept a 200; anything else clears the flag and falls through
to `Login`.  When the flag is clear, go straight to `Login`. -/
def ensureLoggedIn (o : DOracle) (st : DSt) : Except DErr Unit × DSt × List DEv :=
  if st.loggedIn then
    match o.probe st.pr with
    | .resp 200 _ => (.ok (), { st with pr := st.pr + 1 }, [.probeReq])
    | _ =>
      let (r, st2, ev) := loginD o { st with pr := st.pr + 1, loggedIn := false }
      (r, st2, .probeReq :: ev)
  else loginD o st

/-- Model of `GetTorrents`: ensure the session, then one list GET; the
response status is not inspected, only the JSON decode result. -/
def getTorrents (o : DOracle) (st : DSt) :
    Except DErr (List TorrentInfo) × DSt × List DEv :=
  match ensureLoggedIn o st with
  | (.error e, st1, ev) => (.error e, st1, ev)
  | (.ok _, st1, ev) =>
    match o.listR st1.ls with
    | .netErr => (.error .listRequestFailed, { st1 with ls := st1.ls + 1 }, ev ++ [.listReq])
    | .resp _ none => (.error .listParseFailed, { st1 with ls := st1.ls + 1 }, ev ++ [.listReq])
    | .resp _ (some l) => (.ok l, { st1 with ls := st1.ls + 1 }, ev ++ [.listReq])

/-- The newest-record scan of `AddTorrent`: fold over the list keeping
the record whose added timestamp strictly exceeds the best so far,
starting from timestamp 0 and no record. -/
def findNewestAux : List TorrentInfo → Int → Option TorrentInfo → Option TorrentInfo
  | [], _, best => best
  | t :: rest, newestTime, best =>
    if newestTime < t.addedOn then findNewestAux rest t.addedOn (some t)
    else findNewestAux rest newestTime best

/-- The newest-record scan started as in the source: best time 0, no
record. -/
def findNewest (ts : List TorrentInfo) : Option TorrentInfo :=
  findNewestAux ts 0 none

/-- Model of `AddTorrent`: ensure the session, reject an empty payload,
upload, re-list, and resolve the new record with the newest-record
scan. -/
def addTorrent (o : DOracle) (st : DSt) (torrentBytes savePath : List Char) :
    Except DErr TorrentInfo × DSt × List DEv :=
  match ensureLoggedIn o st with
  | (.error e, st1, ev) => (.error e, st1, ev)
  | (.ok _, st1, ev) =>
    if torrentBytes.length = 0 then (.error .emptyTorrent, st1, ev)
    else
      match o.addR st1.ad with
      | .netErr => (.error .addRequestFailed, { st1 with ad := st1.ad + 1 }, ev ++ [.addReq])
      | .resp code _ =>
        if code ≠ 200 then
          (.error (.addBadStatus code), { st1 with ad := st1.ad + 1 }, ev ++ [.addReq])
        else
          match getTorrents o { st1 with ad := st1.ad + 1 } with
          | (.error e, st2, ev2) => (.error (.afterAddFailed e), st2, ev ++ [.addReq] ++ ev2)
          | (.ok l, st2, ev2) =>
            match findNewest l with
            | none => (.error .notFound, st2, ev ++ [.addReq] ++ ev2)
            | some r => (.ok r, st2, ev ++ [.addReq] ++ ev2)

/-! ## Orchestrator (model of `DownloadAndAddTorrent`) -/

/-- Error outcomes of the orchestrator, tagging which stage failed. -/
inductive OErr where
  | fetchFailed (e : TErr)
  | addFailed (e : DErr)
deriving DecidableEq, Repr

/-- Model of `DownloadAndAddTorrent`: fetch the payload from the
tracker, then add it to the daemon; either stage's error propagates
tagged with its stage, and a fetch failure issues no daemon request. -/
def downloadAndAddTorrent (creds : List (List Char)) (tro : TOracle)
    (dor : DOracle) (dst : DSt) (trackerName tid savePath : List Char) :
    Except OErr TorrentInfo × DSt × List TEv × List DEv :=
  match downloadTorrent creds tro trackerName tid with
  | (.error e, _, tev) => (.error (.fetchFailed e), dst, tev, [])
  | (.ok bytes, _, tev) =>
    match addTorrent dor dst bytes savePath with
    | (.error e, dst1, dev) => (.error (.addFailed e), dst1, tev, dev)
    | (.ok r, dst1, dev) => (.ok r, dst1, tev, dev)

/-! ## Conversation router (model of the `Bot` handlers in keyboard.go)

The pending-link table is modelled as the Go map it is: a total
function from chat id to link text in which the empty string means
"no entry" (a Go map read of a missing key yields the zero value).
The chat transport is summarized as a list of effect events; the
daemon- and tracker-backed command handlers are summarized as one
event each, since their internals never touch the pending-link
table. -/

/-- Configuration visible to the router: the allow-list and the
category table (category key to save path). -/
structure Cfg where
  allowedUsers : List Int
  categories : List (List Char × List Char)

/-- Router state: the pending-link table. -/
structure BSt where
  pending : Int → List Char

/-- Effects of a handler, in order of occurrence. -/
inductive BEv where
  | evAck
  | evMsg
  | evUnauthorized
  | evKeyboard
  | evOrch
  | evManage
  | evAction (a : List Char)
  | evListPag
  | evHelp
  | evStatus
  | evTorrentSearch
  | evList
  | evReconnect
  | evPassword
  | evUnknownCmd
  | evUnknownAction
deriving DecidableEq, Repr

/-- An inbound Telegram update: a callback press, a message (with the
command name when the message is a command), or an empty update. -/
inductive Upd where
  | cb (chat : Int) (data : List Char)
  | msg (chat : Int) (text : List Char) (cmd : Option (List Char))
  | nothing

/-- Write one chat's pending link. -/
def setPending (st : BSt) (chat : Int) (l : List Char) : BSt :=
  ⟨fun c => if c = chat then l else st.pending c⟩

/-- Category lookup (models the Go map access with its exists flag). -/
def lookupCat : List (List Char × List Char) → List Char → Option (List Char)
  | [], _ => none
  | (k, v) :: rest, key => if k = key then some v else lookupCat rest key

/-- Model of `handleTorrentLink`: store the link keyed by the chat id
(overwriting any previous entry) and send the category keyboard. -/
def handleTorrentLink (st : BSt) (chat : Int) (text : List Char) : BSt × List BEv :=
  (setPending st chat text, [.evKeyboard])

/-- Model of `handleTorrentDownload`: edit the message, resolve the
category, extract the tracker link, run the orchestrator, and delete
the pending entry only on the success path. -/
def handleTorrentDownload (cfg : Cfg) (creds : List (List Char)) (tro : TOracle)
    (dor : DOracle) (dst : DSt) (st : BSt) (chat : Int)
    (torrentLink categoryKey : List Char) : BSt × List BEv :=
  match lookupCat cfg.categories categoryKey with
  | none => (st, [.evMsg, .evMsg])
  | some savePath =>
    match processTorrentLink torrentLink with
    | .error _ => (st, [.evMsg, .evMsg])
    | .ok (trackerName, tid) =>
      match downloadAndAddTorrent creds tro dor dst trackerName tid savePath with
      | (.error _, _, _, _) => (st, [.evMsg, .evOrch, .evMsg])
      | (.ok _, _, _, _) => (setPending st chat [], [.evMsg, .evOrch, .evMsg])

/-- The lifecycle verbs of the callback dispatch. -/
def lifecycleVerbs : List (List Char) :=
  ["pause".toList, "resume".toList, "delete".toList,
   "deletewithdata".toList, "info".toList]

/-- Model of `handleCallbackQuery`: acknowledge, then dispatch — the
category branch requires a trailing period and a non-empty pending
entry; colon-separated tokens route to the management handlers; all
without any allow-list check. -/
def handleCallbackQuery (cfg : Cfg) (creds : List (List Char)) (tro : TOracle)
    (dor : DOracle) (dst : DSt) (st : BSt) (chat : Int) (data : List Char) :
    BSt × List BEv :=
  if endsWithDot data = true ∧ st.pending chat ≠ [] then
    let (st1, ev) := handleTorrentDownload cfg creds tro dor dst st chat (st.pending chat) data
    (st1, .evAck :: ev)
  else if data.contains ':' then
    let parts := splitCols data
    if parts.length < 2 then (st, [.evAck, .evMsg])
    else
      let action := parts.headD []
      if action = "manage".toList then (st, [.evAck, .evManage])
      else if action ∈ lifecycleVerbs then (st, [.evAck, .evAction action])
      else if action = "list".toList then
        if 2 < parts.length ∧ parts.getD 1 [] = "page".toList then
          (st, [.evAck, .evListPag])
        else (st, [.evAck])
      else (st, [.evAck, .evUnknownAction])
  else (st, [.evAck, .evMsg])

/-- Post-authorization command dispatch, summarized as one effect per
handler. -/
def dispatchCmd (c : List Char) : BEv :=
  if c = "start".toList ∨ c = "help".toList then .evHelp
  else if c = "status".toList then .evStatus
  else if c = "torrent".toList then .evTorrentSearch
  else if c = "list".toList then .evList
  else if c = "reconnect".toList then .evReconnect
  else if c = "password".toList then .evPassword
  else .evUnknownCmd

/-- Model of `handleCommand`: lower-case the command name, reject
chats outside the allow-list before dispatching, and otherwise
dispatch.  No branch touches the pending-link table. -/
def handleCommand (cfg : Cfg) (st : BSt) (chat : Int) (cmd : List Char) :
    BSt × List BEv :=
  let c := cmd.map Char.toLower
  if chat ∈ cfg.allowedUsers then (st, [dispatchCmd c])
  else (st, [.evUnauthorized])

/-- Model of `handleUpdate`: callbacks first, then torrent-link
matching (before the command check), then commands. -/
def handleUpdate (cfg : Cfg) (creds : List (List Char)) (tro : TOracle)
    (dor : DOracle) (dst : DSt) (st : BSt) (u : Upd) : BSt × List BEv :=
  match u with
  | .cb chat data => handleCallbackQuery cfg creds tro dor dst st chat data
  | .nothing => (st, [])
  | .msg chat text cmd =>
    if hasURL text then handleTorrentLink st chat text
    else
      match cmd with
      | some c => handleCommand cfg st chat c
      | none => (st, [])

/-! ## Pagination (model of the slice arithmetic of
`HandleTorrentStatus` and `CreateTorrentListKeyboard`) -/

/-- The page's start index: `page * size`, never clamped. -/
def startIndexOf (page size : Int) : Int := page * size

/-- The page's end index: `start + size`, clamped down to the list
length when it overshoots. -/
def endIndexOf (page size len : Int) : Int :=
  let e := page * size + size
  if e > len then len else e

/-- Validity of the Go slice expression `torrents[s:e]`: it panics
unless `0 ≤ s ≤ e ≤ len`. -/
def sliceOK (s e len : Int) : Prop := 0 ≤ s ∧ s ≤ e ∧ e ≤ len

/-! ## Theorems -/

/-- C10: for every torrent list and every non-negative page number,
the pagination computes the slice from `page * size` up to
`min ((page + 1) * size, length)`; only the end index is clamped, so
the slice is within bounds exactly when `page * size` does not exceed
the list length. -/
theorem C10_pagination_bounds (page size len : Int) (hp : 0 ≤ page) (hs : 0 ≤ size) :
    (sliceOK (startIndexOf page size) (endIndexOf page size len) len ↔
      page * size ≤ len) ∧
    endIndexOf page size len = min (page * size + size) len := by
  have hps : 0 ≤ page * size := mul_nonneg hp hs
  unfold sliceOK startIndexOf endIndexOf
  generalize hg : page * size = k at hps ⊢
  dsimp only
  split_ifs with h
  · exact ⟨⟨fun ⟨h0, h1, h2⟩ => by omega, fun hl => ⟨hps, by omega, by omega⟩⟩, by omega⟩
  · exact ⟨⟨fun ⟨h0, h1, h2⟩ => by omega, fun hl => ⟨hps, by omega, by omega⟩⟩, by omega⟩

/-- C10 witness: page 1 of size 10 over a list of length 15. -/
theorem C10_pagination_bounds_witness :
    (sliceOK (startIndexOf 1 10) (endIndexOf 1 10 15) 15 ↔ (1 : Int) * 10 ≤ 15) ∧
    endIndexOf 1 10 15 = min ((1 : Int) * 10 + 10) 15 :=
  C10_pagination_bounds 1 10 15 (by norm_num) (by norm_num)

/-- C8: the recognizer returns NoMatch when the URL pattern matches
nowhere; on a match it extracts the id with the key `t=` when the
leftmost tracker word is rutracker (so the sample rutracker link
yields id 555) and with the key `id=` when it is kinozal; and a failed
site-specific extraction yields an extraction error distinct from
NoMatch. -/
theorem C8_link_recognition :
    (∀ s : List Char, hasURL s = false → processTorrentLink s = .error .noMatch) ∧
    (processTorrentLink ("https://rutracker.xx/forum/dl.php?t=555".toList) =
      .ok ("rutracker".toList, "555".toList)) ∧
    (∀ s : List Char, hasURL s = true → findTrackerStr s = "rutracker".toList →
      ∀ d, extractKey ("t=".toList) s = some d →
        processTorrentLink s = .ok ("rutracker".toList, d)) ∧
    (∀ s : List Char, hasURL s = true → findTrackerStr s = "kinozal".toList →
      ∀ d, extractKey ("id=".toList) s = some d →
        processTorrentLink s = .ok ("kinozal".toList, d)) ∧
    (∀ s : List Char, hasURL s = true → findTrackerStr s = "rutracker".toList →
      extractKey ("t=".toList) s = none →
        processTorrentLink s = .error .extractionRutracker) ∧
    (∀ s : List Char, hasURL s = true → findTrackerStr s = "kinozal".toList →
      extractKey ("id=".toList) s = none →
        processTorrentLink s = .error .extractionKinozal) ∧
    (LinkErr.extractionRutracker ≠ .noMatch ∧ LinkErr.extractionKinozal ≠ .noMatch) := by
  refine ⟨?_, by decide, ?_, ?_, ?_, ?_, by decide, by decide⟩
  · intro s h; simp [processTorrentLink, h]
  · intro s h1 h2 d h3
    have h3' : extractKey ['t', '='] s = some d := h3
    simp +decide [processTorrentLink, h1, h2, h3']
  · intro s h1 h2 d h3
    have h3' : extractKey ['i', 'd', '='] s = some d := h3
    simp +decide [processTorrentLink, h1, h2, h3']
  · intro s h1 h2 h3
    have h3' : extractKey ['t', '='] s = none := h3
    simp +decide [processTorrentLink, h1, h2, h3']
  · intro s h1 h2 h3
    have h3' : extractKey ['i', 'd', '='] s = none := h3
    simp +decide [processTorrentLink, h1, h2, h3']

/-- C8 witness: a no-URL text, a rutracker URL without an id, and a
kinozal URL with an id. -/
theorem C8_link_recognition_witness :
    processTorrentLink ("hello".toList) = .error .noMatch ∧
    processTorrentLink ("https://rutracker.org/".toList) = .error .extractionRutracker ∧
    processTorrentLink ("https://kinozal.tv/details.php?id=123".toList) =
      .ok ("kinozal".toList, "123".toList) :=
  ⟨C8_link_recognition.1 _ (by decide),
   C8_link_recognition.2.2.2.2.1 _ (by decide) (by decide) (by decide),
   C8_link_recognition.2.2.2.1 _ (by decide) (by decide) _ (by decide)⟩

/-- The newest-record scan leaves its accumulator untouched when no
candidate beats the running best time. -/
theorem findNewestAux_const (ts : List TorrentInfo) (nt : Int) (best : Option TorrentInfo)
    (h : ∀ t ∈ ts, t.addedOn ≤ nt) : findNewestAux ts nt best = best := by
  induction ts generalizing nt best with
  | nil => rfl
  | cons t rest ih =>
    have ht : t.addedOn ≤ nt := h t (List.mem_cons_self t rest)
    simp only [findNewestAux]
    rw [if_neg (by omega)]
    exact ih nt best (fun u hu => h u (List.mem_cons_of_mem t hu))

/-- When some candidate beats the running best time, the newest-record
scan returns a listed record that beats it and is maximal among the
list. -/
theorem findNewestAux_max (ts : List TorrentInfo) (nt : Int) (best : Option TorrentInfo)
    (h : ∃ t ∈ ts, nt < t.addedOn) :
    ∃ r, findNewestAux ts nt best = some r ∧ r ∈ ts ∧ nt < r.addedOn ∧
      ∀ t ∈ ts, t.addedOn ≤ r.addedOn := by
  induction ts generalizing nt best with
  | nil => simp at h
  | cons t rest ih =>
    by_cases hc : nt < t.addedOn
    · simp only [findNewestAux]
      rw [if_pos hc]
      by_cases hr : ∃ u ∈ rest, t.addedOn < u.addedOn
      · obtain ⟨r, hEq, hMem, hGt, hMax⟩ := ih t.addedOn (some t) hr
        refine ⟨r, hEq, List.mem_cons_of_mem t hMem, by omega, ?_⟩
        intro u hu
        rcases List.mem_cons.mp hu with h1 | h2
        · subst h1; omega
        · exact hMax u h2
      · push_neg at hr
        rw [findNewestAux_const rest t.addedOn (some t) hr]
        refine ⟨t, rfl, List.mem_cons_self t rest, hc, ?_⟩
        intro u hu
        rcases List.mem_cons.mp hu with h1 | h2
        · subst h1; exact le_refl _
        · exact hr u h2
    · obtain ⟨u, hu, hnu⟩ := h
      have hu' : u ∈ rest := by
        rcases List.mem_cons.mp hu with h1 | h2
        · subst h1; exact absurd hnu hc
        · exact h2
      simp only [findNewestAux]
      rw [if_neg hc]
      obtain ⟨r, hEq, hMem, hGt, hMax⟩ := ih nt best ⟨u, hu', hnu⟩
      refine ⟨r, hEq, List.mem_cons_of_mem t hMem, hGt, ?_⟩
      intro v hv
      rcases List.mem_cons.mp hv with h1 | h2
      · subst h1; omega
      · exact hMax v h2

/-- When some record has a strictly positive timestamp, the scan
returns a listed record with the maximal timestamp. -/
theorem findNewest_max (ts : List TorrentInfo) (h : ∃ t ∈ ts, 0 < t.addedOn) :
    ∃ r, findNewest ts = some r ∧ r ∈ ts ∧ ∀ t ∈ ts, t.addedOn ≤ r.addedOn := by
  obtain ⟨r, hEq, hMem, _, hMax⟩ := findNewestAux_max ts 0 none h
  exact ⟨r, hEq, hMem, hMax⟩

/-- When no record has a strictly positive timestamp, the scan returns
no record at all. -/
theorem findNewest_nonpos (ts : List TorrentInfo) (h : ∀ t ∈ ts, t.addedOn ≤ 0) :
    findNewest ts = none := findNewestAux_const ts 0 none h

/-- A successful add pipeline (fresh session, login accepted, upload
accepted, probe accepted, list decoded) reduces to the newest-record
scan over the re-listed records. -/
theorem addTorrent_run (o : DOracle) (st : DSt) (bytes sp okb pb ab : List Char)
    (c : Nat) (L : List TorrentInfo)
    (hflag : st.loggedIn = false)
    (hlogin : o.login st.lg = .resp 200 okb)
    (hok : hasSub ("Ok".toList) okb = true)
    (hbytes : bytes.length ≠ 0)
    (hadd : o.addR st.ad = .resp 200 ab)
    (hprobe : o.probe st.pr = .resp 200 pb)
    (hlist : o.listR st.ls = .resp c (some L)) :
    (addTorrent o st bytes sp).1 =
      (match findNewest L with
       | none => Except.error DErr.notFound
       | some r => Except.ok r) := by
  have hok' : hasSub ['O', 'k'] okb = true := hok
  cases hfn : findNewest L with
  | none =>
    simp [addTorrent, ensureLoggedIn, loginD, getTorrents,
      hflag, hlogin, hok', hbytes, hadd, hprobe, hlist, hfn]
  | some r =>
    simp [addTorrent, ensureLoggedIn, loginD, getTorrents,
      hflag, hlogin, hok', hbytes, hadd, hprobe, hlist, hfn]

/-- C6: after a successful add upload and re-list, the operation
returns a listed record whose added timestamp is maximal whenever some
record has a positive timestamp, and fails with the not-found error
when the newest-record scan yields no entry. -/
theorem C6_newest_selection (o : DOracle) (st : DSt) (bytes sp okb pb ab : List Char)
    (c : Nat) (L : List TorrentInfo)
    (hflag : st.loggedIn = false)
    (hlogin : o.login st.lg = .resp 200 okb)
    (hok : hasSub ("Ok".toList) okb = true)
    (hbytes : bytes.length ≠ 0)
    (hadd : o.addR st.ad = .resp 200 ab)
    (hprobe : o.probe st.pr = .resp 200 pb)
    (hlist : o.listR st.ls = .resp c (some L)) :
    ((∃ t ∈ L, 0 < t.addedOn) →
      ∃ r, (addTorrent o st bytes sp).1 = .ok r ∧ r ∈ L ∧
        ∀ t ∈ L, t.addedOn ≤ r.addedOn) ∧
    (findNewest L = none → (addTorrent o st bytes sp).1 = .error .notFound) := by
  have hrun := addTorrent_run o st bytes sp okb pb ab c L
    hflag hlogin hok hbytes hadd hprobe hlist
  constructor
  · intro hex
    obtain ⟨r, hEq, hMem, hMax⟩ := findNewest_max L hex
    exact ⟨r, by rw [hrun, hEq], hMem, hMax⟩
  · intro hnone
    rw [hrun, hnone]

/-- Record with added timestamp 10 for the re-list scenario. -/
def t10 : TorrentInfo := ⟨"a".toList, "h1".toList, 10⟩

/-- Record with added timestamp 30 for the re-list scenario. -/
def t30 : TorrentInfo := ⟨"b".toList, "h2".toList, 30⟩

/-- Record with added timestamp 20 for the re-list scenario. -/
def t20 : TorrentInfo := ⟨"c".toList, "h3".toList, 20⟩

/-- Daemon oracle whose re-list returns timestamps 10, 30, 20. -/
def oC6 : DOracle :=
  ⟨fun _ => .resp 200 [], fun _ => .resp 200 ("Ok".toList),
   fun _ => .resp 200 [], fun _ => .resp 200 (some [t10, t30, t20])⟩

/-- A fresh daemon session state. -/
def dst0 : DSt := ⟨false, 0, 0, 0, 0⟩

/-- C6 witness: with the 10/30/20 list the add operation returns the
record with timestamp 30, which is maximal. -/
theorem C6_newest_selection_witness :
    (∃ r, (addTorrent oC6 dst0 ("d123456789".toList) []).1 = .ok r ∧
      r ∈ [t10, t30, t20] ∧ ∀ t ∈ [t10, t30, t20], t.addedOn ≤ r.addedOn) ∧
    (addTorrent oC6 dst0 ("d123456789".toList) []).1 = .ok t30 :=
  ⟨(C6_newest_selection oC6 dst0 ("d123456789".toList) [] ("Ok".toList) [] []
      200 [t10, t30, t20] rfl rfl (by decide) (by decide) rfl rfl rfl).1
    ⟨t30, by decide, by decide⟩,
   by decide⟩

/-- C9: when the re-list after a successful upload returns a non-empty
list in which every record has a non-positive added timestamp, the add
operation reports the not-found error: the newest-record scan only
considers strictly positive timestamps. -/
theorem C9_nonpositive_timestamps (o : DOracle) (st : DSt)
    (bytes sp okb pb ab : List Char) (c : Nat) (L : List TorrentInfo)
    (hflag : st.loggedIn = false)
    (hlogin : o.login st.lg = .resp 200 okb)
    (hok : hasSub ("Ok".toList) okb = true)
    (hbytes : bytes.length ≠ 0)
    (hadd : o.addR st.ad = .resp 200 ab)
    (hprobe : o.probe st.pr = .resp 200 pb)
    (hlist : o.listR st.ls = .resp c (some L))
    (hne : L ≠ [])
    (hnp : ∀ t ∈ L, t.addedOn ≤ 0) :
    (addTorrent o st bytes sp).1 = .error .notFound := by
  have hrun := addTorrent_run o st bytes sp okb pb ab c L
    hflag hlogin hok hbytes hadd hprobe hlist
  rw [hrun, findNewest_nonpos L hnp]

/-- Daemon oracle whose re-list returns one record with timestamp 0. -/
def oC9 : DOracle :=
  ⟨fun _ => .resp 200 [], fun _ => .resp 200 ("Ok".toList),
   fun _ => .resp 200 [], fun _ => .resp 200 (some [⟨"z".toList, "hz".toList, 0⟩])⟩

/-- C9 witness: a non-empty re-list whose only record has timestamp 0
makes the add operation fail with the not-found error. -/
theorem C9_nonpositive_timestamps_witness :
    (addTorrent oC9 dst0 ("d123456789".toList) []).1 = .error .notFound :=
  C9_nonpositive_timestamps oC9 dst0 ("d123456789".toList) [] ("Ok".toList) [] []
    200 [⟨"z".toList, "hz".toList, 0⟩] rfl rfl (by decide) (by decide) rfl rfl rfl
    (by decide) (by decide)

/-- C4: with login succeeding, a fetch whose download GETs all return
401 performs exactly two download attempts and exactly one reconnect
and then fails; a download GET returning a non-2xx status other than
401/403 fails immediately with no reconnect and no second attempt; and
a non-200 status on the post-401 retry fails without a third attempt. -/
theorem C4_retry_policy (o : TOracle) (creds : List (List Char)) (name tid : List Char)
    (bf : Nat → List Char) (hc : name ∈ creds) (ht : name ∈ trackerNames) :
    ((∀ k, o.login k = .resp 200) → (∀ k, o.get k = .resp 401 (bf k)) →
      (downloadTorrent creds o name tid).1 = .error (.badStatusAfterReconnect 401) ∧
      (downloadTorrent creds o name tid).2.2.count .getReq = 2 ∧
      (downloadTorrent creds o name tid).2.2.count .reconn = 1) ∧
    (∀ s b, ¬(200 ≤ s ∧ s < 300) → s ≠ 401 → s ≠ 403 →
      o.login 0 = .resp 200 → o.get 0 = .resp s b →
      (downloadTorrent creds o name tid).1 = .error (.badStatus s) ∧
      (downloadTorrent creds o name tid).2.2.count .getReq = 1 ∧
      (downloadTorrent creds o name tid).2.2.count .reconn = 0) ∧
    (∀ s2 b1 b2, o.login 0 = .resp 200 → o.login 1 = .resp 200 →
      o.get 0 = .resp 401 b1 → o.get 1 = .resp s2 b2 → s2 ≠ 200 →
      (downloadTorrent creds o name tid).1 = .error (.badStatusAfterReconnect s2) ∧
      (downloadTorrent creds o name tid).2.2.count .getReq = 2) := by
  refine ⟨?_, ?_, ?_⟩
  · intro hl hg
    have hrun : downloadTorrent creds o name tid =
        (.error (.badStatusAfterReconnect 401), ⟨2, 2⟩,
         [.loginReq, .getReq, .reconn, .loginReq, .getReq]) := by
      simp [downloadTorrent, loginToTracker, reconnectT, getPhase, statusPhase,
        bumpLogin, bumpGet, hc, ht, hl 0, hl 1, hg 0, hg 1]
    exact ⟨by rw [hrun], by rw [hrun]; rfl, by rw [hrun]; rfl⟩
  · intro s b h2xx h401 h403 hl0 hg0
    have hs200 : s ≠ 200 := by omega
    have hrun : downloadTorrent creds o name tid =
        (.error (.badStatus s), ⟨1, 1⟩, [.loginReq, .getReq]) := by
      simp [downloadTorrent, loginToTracker, reconnectT, getPhase, statusPhase,
        bumpLogin, bumpGet, hc, ht, hl0, hg0, hs200, h401, h403]
    exact ⟨by rw [hrun], by rw [hrun]; rfl, by rw [hrun]; rfl⟩
  · intro s2 b1 b2 hl0 hl1 hg0 hg1 hs2
    have hrun : downloadTorrent creds o name tid =
        (.error (.badStatusAfterReconnect s2), ⟨2, 2⟩,
         [.loginReq, .getReq, .reconn, .loginReq, .getReq]) := by
      simp [downloadTorrent, loginToTracker, reconnectT, getPhase, statusPhase,
        bumpLogin, bumpGet, hc, ht, hl0, hl1, hg0, hg1, hs2]
    exact ⟨by rw [hrun], by rw [hrun]; rfl⟩

/-- Tracker oracle that always accepts the login and answers every
download GET with 401. -/
def oC4a : TOracle := ⟨fun _ => .resp 200, fun _ => .resp 401 []⟩

/-- Tracker oracle that always accepts the login and answers the
download GET with 404. -/
def oC4b : TOracle := ⟨fun _ => .resp 200, fun _ => .resp 404 []⟩

/-- C4 witness: the all-401 oracle gives two attempts and one
reconnect; a 404 fails on the first attempt with no reconnect. -/
theorem C4_retry_policy_witness :
    ((downloadTorrent ["rutracker".toList] oC4a ("rutracker".toList) ("1".toList)).1 =
        .error (.badStatusAfterReconnect 401) ∧
      (downloadTorrent ["rutracker".toList] oC4a ("rutracker".toList) ("1".toList)).2.2.count
        .getReq = 2 ∧
      (downloadTorrent ["rutracker".toList] oC4a ("rutracker".toList) ("1".toList)).2.2.count
        .reconn = 1) ∧
    ((downloadTorrent ["rutracker".toList] oC4b ("rutracker".toList) ("1".toList)).1 =
        .error (.badStatus 404) ∧
      (downloadTorrent ["rutracker".toList] oC4b ("rutracker".toList) ("1".toList)).2.2.count
        .getReq = 1 ∧
      (downloadTorrent ["rutracker".toList] oC4b ("rutracker".toList) ("1".toList)).2.2.count
        .reconn = 0) :=
  ⟨(C4_retry_policy oC4a ["rutracker".toList] ("rutracker".toList) ("1".toList)
      (fun _ => []) (by decide) (by decide)).1 (fun _ => rfl) (fun _ => rfl),
   (C4_retry_policy oC4b ["rutracker".toList] ("rutracker".toList) ("1".toList)
      (fun _ => []) (by decide) (by decide)).2.1 404 [] (by omega) (by decide)
      (by decide) rfl rfl⟩

/-- C7 (amended): a credential-lookup miss makes the fetch fail with
the reconnect error wrapping the config error after exactly one
reconnect invocation that performs no HTTP login request; an
authentication failure triggers exactly one reconnect (two HTTP login
attempts in total) and fails with the reconnect error wrapping the
second login failure. -/
theorem C7_credential_miss (o : TOracle) (creds : List (List Char)) (name tid : List Char) :
    (name ∉ creds →
      (downloadTorrent creds o name tid).1 = .error (.reconnectFailed .configErr) ∧
      (downloadTorrent creds o name tid).2.2 = [.reconn]) ∧
    (∀ c0 c1, name ∈ creds → o.login 0 = .resp c0 → c0 ≠ 200 →
      o.login 1 = .resp c1 → c1 ≠ 200 →
      (downloadTorrent creds o name tid).1 =
        .error (.reconnectFailed (.loginBadStatus c1)) ∧
      (downloadTorrent creds o name tid).2.2.count .reconn = 1 ∧
      (downloadTorrent creds o name tid).2.2.count .loginReq = 2) := by
  constructor
  · intro hnc
    constructor <;>
      simp [downloadTorrent, loginToTracker, reconnectT, hnc]
  · intro c0 c1 hmem hl0 hc0 hl1 hc1
    have hrun : downloadTorrent creds o name tid =
        (.error (.reconnectFailed (.loginBadStatus c1)), ⟨2, 0⟩,
         [.loginReq, .reconn, .loginReq]) := by
      simp [downloadTorrent, loginToTracker, reconnectT, bumpLogin,
        hmem, hl0, hc0, hl1, hc1]
    exact ⟨by rw [hrun], by rw [hrun]; rfl, by rw [hrun]; rfl⟩

/-- Tracker oracle for the credential-miss run. -/
def oC7 : TOracle := ⟨fun _ => .resp 200, fun _ => .resp 200 []⟩

/-- Tracker oracle whose logins are always rejected with 403. -/
def oC7b : TOracle := ⟨fun _ => .resp 403, fun _ => .resp 200 []⟩

/-- C7 counterexample: with no configured credentials the fetch does
perform a reconnect (the trace is exactly one reconnect event, not
empty) and the error is the reconnect wrapper around the config error,
refuting that no reconnect is performed on a credential miss. -/
theorem C7_counterexample :
    (downloadTorrent [] oC7 ("rutracker".toList) ("1".toList)).1 =
      .error (.reconnectFailed .configErr) ∧
    (downloadTorrent [] oC7 ("rutracker".toList) ("1".toList)).2.2 = [.reconn] ∧
    (downloadTorrent [] oC7 ("rutracker".toList) ("1".toList)).2.2 ≠ [] := by
  decide

/-- C7 witness: the credential-miss half at a concrete oracle, and the
auth-failure half with logins rejected by status 403. -/
theorem C7_credential_miss_witness :
    ((downloadTorrent ["x".toList] oC7 ("rutracker".toList) ("1".toList)).1 =
        .error (.reconnectFailed .configErr) ∧
      (downloadTorrent ["x".toList] oC7 ("rutracker".toList) ("1".toList)).2.2 =
        [.reconn]) ∧
    ((downloadTorrent ["rutracker".toList] oC7b ("rutracker".toList) ("1".toList)).1 =
        .error (.reconnectFailed (.loginBadStatus 403)) ∧
      (downloadTorrent ["rutracker".toList] oC7b ("rutracker".toList) ("1".toList)).2.2.count
        .reconn = 1 ∧
      (downloadTorrent ["rutracker".toList] oC7b ("rutracker".toList) ("1".toList)).2.2.count
        .loginReq = 2) :=
  ⟨(C7_credential_miss oC7 ["x".toList] ("rutracker".toList) ("1".toList)).1 (by decide),
   (C7_credential_miss oC7b ["rutracker".toList] ("rutracker".toList) ("1".toList)).2
      403 403 (by decide) rfl (by decide) rfl (by decide)⟩

/-- C5 (amended): with login succeeding and the download GET answering
200 with body `b`, the fetch returns `b` exactly when `b` is at least
10 bytes long and starts with the sentinel byte `d` (so non-empty
bodies starting with `d` but shorter than 10 bytes are also rejected);
and whenever the fetch fails, the orchestrator reports the fetch
failure and issues no daemon request. -/
theorem C5_payload_validation (o : TOracle) (creds : List (List Char))
    (name tid : List Char) (hc : name ∈ creds) (ht : name ∈ trackerNames) :
    (∀ b, o.login 0 = .resp 200 → o.get 0 = .resp 200 b →
      ((downloadTorrent creds o name tid).1 = .ok b ↔
        (10 ≤ b.length ∧ b.head? = some 'd'))) ∧
    (∀ (dor : DOracle) (dst : DSt) (sp : List Char) (e : TErr),
      (downloadTorrent creds o name tid).1 = .error e →
      (downloadAndAddTorrent creds o dor dst name tid sp).1 =
        .error (.fetchFailed e) ∧
      (downloadAndAddTorrent creds o dor dst name tid sp).2.2.2 = []) := by
  constructor
  · intro b hl hg
    have hrun : (downloadTorrent creds o name tid).1 = validatePayload b := by
      simp [downloadTorrent, loginToTracker, getPhase, statusPhase,
        bumpLogin, bumpGet, hc, ht, hl, hg]
    rw [hrun]
    unfold validatePayload
    split_ifs with h1 h2
    · constructor
      · intro hcon; cases hcon
      · rintro ⟨ha, _⟩; omega
    · constructor
      · intro hcon; cases hcon
      · rintro ⟨ha, hb⟩
        rcases h2 with h2a | h2b
        · omega
        · exact h2b hb
    · push_neg at h2
      exact ⟨fun _ => ⟨by omega, h2.2⟩, fun _ => rfl⟩
  · intro dor dst sp e he
    rcases hdl : downloadTorrent creds o name tid with ⟨r, st', tev⟩
    rw [hdl] at he
    simp only at he
    subst he
    simp [downloadAndAddTorrent, hdl]

/-- Tracker oracle answering the download with a 5-byte body starting
with the sentinel byte. -/
def oC5 : TOracle := ⟨fun _ => .resp 200, fun _ => .resp 200 ("dtest".toList)⟩

/-- C5 counterexample: a non-empty body starting with `d` but shorter
than 10 bytes is rejected with the format error, refuting that
non-emptiness plus the sentinel byte suffices for success. -/
theorem C5_counterexample :
    ("dtest".toList ≠ []) ∧ ("dtest".toList).head? = some 'd' ∧
    (downloadTorrent ["rutracker".toList] oC5 ("rutracker".toList) ("1".toList)).1 =
      .error .formatErr := by decide

/-- Tracker oracle answering the download with a well-formed 10-byte
body. -/
def oC5b : TOracle := ⟨fun _ => .resp 200, fun _ => .resp 200 ("d123456789".toList)⟩

/-- C5 witness: the 10-byte sentinel body is returned, and the short
sentinel body's failure propagates as a fetch failure with an empty
daemon trace. -/
theorem C5_payload_validation_witness :
    ((downloadTorrent ["rutracker".toList] oC5b ("rutracker".toList) ("1".toList)).1 =
        .ok ("d123456789".toList) ↔
      (10 ≤ ("d123456789".toList).length ∧ ("d123456789".toList).head? = some 'd')) ∧
    ((downloadAndAddTorrent ["rutracker".toList] oC5 oC6 dst0 ("rutracker".toList)
        ("1".toList) []).1 = .error (.fetchFailed .formatErr) ∧
      (downloadAndAddTorrent ["rutracker".toList] oC5 oC6 dst0 ("rutracker".toList)
        ("1".toList) []).2.2.2 = []) :=
  ⟨(C5_payload_validation oC5b ["rutracker".toList] ("rutracker".toList) ("1".toList)
      (by decide) (by decide)).1 ("d123456789".toList) rfl rfl,
   (C5_payload_validation oC5 ["rutracker".toList] ("rutracker".toList) ("1".toList)
      (by decide) (by decide)).2 oC6 dst0 [] .formatErr (by decide)⟩

/-- Every session-ensuring run performs at least one HTTP request and
never an upload or list request. -/
theorem ensureLoggedIn_events (o : DOracle) (st : DSt) :
    (ensureLoggedIn o st).2.2 ≠ [] ∧
    (ensureLoggedIn o st).2.2.count DEv.addReq = 0 ∧
    (ensureLoggedIn o st).2.2.count DEv.listReq = 0 := by
  unfold ensureLoggedIn loginD
  split
  · split
    · simp
    · cases hl : o.login st.lg with
      | netErr => simp [hl]
      | resp code body =>
        by_cases hcd : code = 200 ∧ hasSub ['O', 'k'] body = true
        · simp [hl, hcd]
        · simp [hl, hcd]
  · cases hl : o.login st.lg with
    | netErr => simp [hl]
    | resp code body =>
      by_cases hcd : code = 200 ∧ hasSub ['O', 'k'] body = true
      · simp [hl, hcd]
      · simp [hl, hcd]

/-- C1 (amended): the add operation with an empty payload always
fails, never issues the upload or the re-list request, but does
perform at least one session HTTP request (probe or login) first —
the empty-payload rejection happens after `ensureLoggedIn`, not before
any network call. -/
theorem C1_empty_payload (o : DOracle) (st : DSt) (sp : List Char) :
    (∃ e, (addTorrent o st [] sp).1 = .error e) ∧
    (addTorrent o st [] sp).2.2.count DEv.addReq = 0 ∧
    (addTorrent o st [] sp).2.2.count DEv.listReq = 0 ∧
    (addTorrent o st [] sp).2.2 ≠ [] := by
  obtain ⟨hne, hca, hcl⟩ := ensureLoggedIn_events o st
  rcases hE : ensureLoggedIn o st with ⟨r, st1, ev⟩
  rw [hE] at hne hca hcl
  simp only at hne hca hcl
  cases r with
  | error e =>
    refine ⟨⟨e, ?_⟩, ?_, ?_, ?_⟩ <;> simp [addTorrent, hE, hne, hca, hcl]
  | ok u =>
    refine ⟨⟨.emptyTorrent, ?_⟩, ?_, ?_, ?_⟩ <;> simp [addTorrent, hE, hne, hca, hcl]

/-- Daemon oracle whose login succeeds. -/
def oC1 : DOracle :=
  ⟨fun _ => .resp 200 [], fun _ => .resp 200 ("Ok".toList),
   fun _ => .resp 200 [], fun _ => .resp 200 (some [])⟩

/-- C1 counterexample: on a fresh session with a working login, adding
an empty payload returns the empty-payload validation error but the
trace already contains one login request — not zero HTTP requests. -/
theorem C1_counterexample :
    (addTorrent oC1 dst0 [] ("/x".toList)).1 = .error .emptyTorrent ∧
    (addTorrent oC1 dst0 [] ("/x".toList)).2.2 = [.loginReq] ∧
    (addTorrent oC1 dst0 [] ("/x".toList)).2.2 ≠ [] := by decide

/-- The sample rutracker link used in concrete runs. -/
def linkC : List Char := "https://rutracker.xx/forum/dl.php?t=555".toList

/-- C2 (amended): only commands are checked against the allow-list —
an unauthorized command produces only the unauthorized reply and no
state change; a message containing a tracker link is written to the
pending-link table for every chat id, allow-listed or not; and a
lifecycle callback token is dispatched to the action handler for every
chat id, allow-listed or not. -/
theorem C2_auth_scope (cfg : Cfg) (creds : List (List Char)) (tro : TOracle)
    (dor : DOracle) (dst : DSt) (st : BSt) (chat : Int) :
    (∀ text c, chat ∉ cfg.allowedUsers → hasURL text = false →
      handleUpdate cfg creds tro dor dst st (.msg chat text (some c)) =
        (st, [.evUnauthorized])) ∧
    (∀ text c, hasURL text = true →
      (handleUpdate cfg creds tro dor dst st (.msg chat text c)).1.pending chat = text) ∧
    (chat ∉ cfg.allowedUsers → st.pending chat = [] →
      handleUpdate cfg creds tro dor dst st (.cb chat ("pause:abc".toList)) =
        (st, [.evAck, .evAction ("pause".toList)])) := by
  refine ⟨?_, ?_, ?_⟩
  · intro text c hna htext
    simp [handleUpdate, handleCommand, htext, hna]
  · intro text c htext
    simp [handleUpdate, handleTorrentLink, setPending, htext]
  · intro hna hp
    simp +decide [handleUpdate, handleCallbackQuery, hp, splitCols, splitColsAux,
      lifecycleVerbs]

/-- Configuration with an empty allow-list and no categories. -/
def cfgC2 : Cfg := ⟨[], []⟩

/-- Router state with an empty pending-link table. -/
def st0B : BSt := ⟨fun _ => []⟩

/-- C2 counterexample: a chat id outside the (empty) allow-list sends
a tracker link and the link is written to the pending-link table — a
state transition on behalf of an unauthorized requester. -/
theorem C2_counterexample :
    ((7 : Int) ∉ cfgC2.allowedUsers) ∧
    (handleUpdate cfgC2 [] oC7 oC1 dst0 st0B (.msg 7 linkC none)).1.pending 7 = linkC ∧
    linkC ≠ [] := by
  refine ⟨by decide, ?_, by decide⟩
  simp [handleUpdate, handleTorrentLink, setPending,
    show hasURL linkC = true from by decide]

/-- C2 witness: an unauthorized command is rejected with no state
change, while an unauthorized link message and an unauthorized
lifecycle callback are both processed. -/
theorem C2_auth_scope_witness :
    (handleUpdate cfgC2 [] oC7 oC1 dst0 st0B
        (.msg 7 ("status".toList) (some ("status".toList))) =
      (st0B, [.evUnauthorized])) ∧
    ((handleUpdate cfgC2 [] oC7 oC1 dst0 st0B (.msg 7 linkC none)).1.pending 7 =
      linkC) ∧
    (handleUpdate cfgC2 [] oC7 oC1 dst0 st0B (.cb 7 ("pause:abc".toList)) =
      (st0B, [.evAck, .evAction ("pause".toList)])) :=
  ⟨(C2_auth_scope cfgC2 [] oC7 oC1 dst0 st0B 7).1 ("status".toList) ("status".toList)
      (by decide) (by decide),
   (C2_auth_scope cfgC2 [] oC7 oC1 dst0 st0B 7).2.1 linkC none (by decide),
   (C2_auth_scope cfgC2 [] oC7 oC1 dst0 st0B 7).2.2 (by decide) rfl⟩

/-- C3 (amended): a recognized link always overwrites the requester's
pending entry (last-submitted-wins, other requesters untouched); the
entry is removed when the category-triggered submit succeeds; but when
the submit fails — or the category or extraction fails — the entry is
kept, not removed. -/
theorem C3_pending_lifecycle (cfg : Cfg) (creds : List (List Char)) (tro : TOracle)
    (dor : DOracle) (dst : DSt) (st : BSt) (chat : Int) :
    (∀ text c, hasURL text = true →
      (handleUpdate cfg creds tro dor dst st (.msg chat text c)).1.pending chat = text ∧
      ∀ other, other ≠ chat →
        (handleUpdate cfg creds tro dor dst st (.msg chat text c)).1.pending other =
          st.pending other) ∧
    (∀ link catKey sp site tid r, lookupCat cfg.categories catKey = some sp →
      processTorrentLink link = .ok (site, tid) →
      (downloadAndAddTorrent creds tro dor dst site tid sp).1 = .ok r →
      (handleTorrentDownload cfg creds tro dor dst st chat link catKey).1.pending chat =
        []) ∧
    (∀ link catKey sp site tid e, lookupCat cfg.categories catKey = some sp →
      processTorrentLink link = .ok (site, tid) →
      (downloadAndAddTorrent creds tro dor dst site tid sp).1 = .error e →
      (handleTorrentDownload cfg creds tro dor dst st chat link catKey).1.pending chat =
        st.pending chat) ∧
    (∀ link catKey, lookupCat cfg.categories catKey = none →
      (handleTorrentDownload cfg creds tro dor dst st chat link catKey).1 = st) ∧
    (∀ link catKey sp le, lookupCat cfg.categories catKey = some sp →
      processTorrentLink link = .error le →
      (handleTorrentDownload cfg creds tro dor dst st chat link catKey).1 = st) := by
  refine ⟨?_, ?_, ?_, ?_, ?_⟩
  · intro text c htext
    constructor
    · simp [handleUpdate, handleTorrentLink, setPending, htext]
    · intro other hne
      simp [handleUpdate, handleTorrentLink, setPending, htext, hne]
  · intro link catKey sp site tid r hcat hproc hok
    rcases hdd : downloadAndAddTorrent creds tro dor dst site tid sp with ⟨rr, a, b, c⟩
    rw [hdd] at hok
    simp only at hok
    subst hok
    simp [handleTorrentDownload, hcat, hproc, hdd, setPending]
  · intro link catKey sp site tid e hcat hproc herr
    rcases hdd : downloadAndAddTorrent creds tro dor dst site tid sp with ⟨rr, a, b, c⟩
    rw [hdd] at herr
    simp only at herr
    subst herr
    simp [handleTorrentDownload, hcat, hproc, hdd]
  · intro link catKey hcat
    simp [handleTorrentDownload, hcat]
  · intro link catKey sp le hcat hproc
    simp [handleTorrentDownload, hcat, hproc]

/-- Configuration with a Movies category. -/
def cfgC3 : Cfg := ⟨[], [("Movies.".toList, "/m".toList)]⟩

/-- Router state in which chat 1 has the sample link pending. -/
def stC3 : BSt := ⟨fun c => if c = 1 then linkC else []⟩

/-- C3 counterexample: chat 1 has a pending link, presses the Movies
category token, the submit fails (no tracker credentials), and the
pending entry is still there — it is not removed on failure. -/
theorem C3_counterexample :
    (handleCallbackQuery cfgC3 [] oC7 oC1 dst0 stC3 1 ("Movies.".toList)).1.pending 1 =
      linkC ∧ linkC ≠ [] := by decide

/-- Tracker credentials for the successful end-to-end run. -/
def credsW : List (List Char) := ["rutracker".toList]

/-- C3 witness: the overwrite property at the sample link, the
successful submit clearing the entry, a failing submit keeping it, and
a link-extraction failure (a recognized URL without an id) keeping the
whole state. -/
theorem C3_pending_lifecycle_witness :
    ((handleUpdate cfgC3 credsW oC5b oC6 dst0 stC3 (.msg 1 linkC none)).1.pending 1 =
      linkC) ∧
    ((handleTorrentDownload cfgC3 credsW oC5b oC6 dst0 stC3 1 linkC
        ("Movies.".toList)).1.pending 1 = []) ∧
    ((handleTorrentDownload cfgC3 [] oC7 oC1 dst0 stC3 1 linkC
        ("Movies.".toList)).1.pending 1 = stC3.pending 1) ∧
    ((handleTorrentDownload cfgC3 credsW oC5b oC6 dst0 stC3 1
        ("https://rutracker.org/".toList) ("Movies.".toList)).1 = stC3) :=
  ⟨((C3_pending_lifecycle cfgC3 credsW oC5b oC6 dst0 stC3 1).1 linkC none
      (by decide)).1,
   (C3_pending_lifecycle cfgC3 credsW oC5b oC6 dst0 stC3 1).2.1 linkC
      ("Movies.".toList) ("/m".toList) ("rutracker".toList) ("555".toList) t30
      (by decide) (by decide) (by decide),
   (C3_pending_lifecycle cfgC3 [] oC7 oC1 dst0 stC3 1).2.2.1 linkC
      ("Movies.".toList) ("/m".toList) ("rutracker".toList) ("555".toList)
      (.fetchFailed (.reconnectFailed .configErr))
      (by decide) (by decide) (by decide),
   (C3_pending_lifecycle cfgC3 credsW oC5b oC6 dst0 stC3 1).2.2.2.2
      ("https://rutracker.org/".toList) ("Movies.".toList) ("/m".toList)
      .extractionRutracker (by decide) (by decide)⟩
